import Mathlib

/-!
Shallow embedding of the Delhi High Court order-portal scraper
(source: src/main.py) and verification of the frozen claims about it.

The scraper enumerates (case_type, case_number, filing_year) probes against
an upstream portal, parses each case-detail page, downloads and archives the
order documents referenced by table rows, and persists the resulting records.

Modelling conventions used throughout:
- Machine-level effects are made explicit: the local filesystem is a value of
  type FS threaded through the functions that touch it; HTTP interactions are
  supplied as oracle values describing the response the network produced.
- Python exceptions are modelled with Except PyError; a Python function that
  catches an exception and returns None is modelled as returning an ok none,
  while an exception that escapes the function is an Except.error.
- A Python dict key that may be missing, present with None, or present with a
  string is modelled by the three-valued UrlField.
-/

/-- Python exception classes that the embedded code can raise or catch.
requestError stands for requests.RequestException; indexError for IndexError
(out-of-range list subscript); typeError for TypeError (os.stat on None). -/
inductive PyError
  | requestError
  | indexError
  | typeError
deriving DecidableEq, Repr

deriving instance DecidableEq for Except

/-- One byte chunk of a streamed response body (resp.iter_content). -/
abbrev Chunk := List Nat

/-- The local filesystem: an association list from path to file content. -/
abbrev FS := List (String × List Chunk)

/-- Look a path up in the filesystem. -/
def fsLookup (fs : FS) (p : String) : Option (List Chunk) :=
  match fs with
  | [] => none
  | (q, c) :: rest => if q = p then some c else fsLookup rest p

/-- Create or overwrite the file at path p with content c. -/
def fsSet (fs : FS) (p : String) (c : List Chunk) : FS :=
  match fs with
  | [] => [(p, c)]
  | (q, d) :: rest => if q = p then (p, c) :: rest else (q, d) :: fsSet rest p c

/-- Remove the file at path p (os.remove). -/
def fsRemove (fs : FS) (p : String) : FS :=
  match fs with
  | [] => []
  | (q, d) :: rest => if q = p then rest else (q, d) :: fsRemove rest p

/-- PDF_DIR constant of the source. -/
def PDF_DIR : String := "pdf"

/-- The local path of a downloaded document:
os.path.join(PDF_DIR, uuid.uuid4().hex + ".pdf"), with the uuid hex string
supplied as the fname argument. -/
def pdfFilePath (fname : String) : String := PDF_DIR ++ "/" ++ fname ++ ".pdf"

/-- The body of chunks actually written by the streaming loop
(for chunk in resp.iter_content: if chunk: f.write(chunk)) — empty chunks
are falsy in Python and are skipped. -/
def writeChunks (chunks : List Chunk) : List Chunk :=
  chunks.filter (fun c => c ≠ [])

/-- The response body behaviour of one GetFile.do request: either the whole
stream is delivered, or a requests.RequestException is raised mid-iteration
after the listed chunks were already delivered and written. -/
inductive Body
  | complete (chunks : List Chunk)
  | failsAfter (delivered : List Chunk)
deriving DecidableEq, Repr

/-- The network outcome of one GetFile.do request: a transport error raised
by sess.post itself, or a response with an HTTP status and a body stream. -/
inductive PdfResponse
  | transportError
  | resp (status : Nat) (body : Body)
deriving DecidableEq, Repr

/-- Embedding of download_pdf (src/main.py lines 60 to 76). The try block
covers the whole function and catches requests.RequestException, returning
None. raise_for_status raises for HTTP statuses of 400 and above, before any
file is created. The output file is created by open(file_path, "wb") as soon
as streaming starts, so a mid-stream RequestException leaves the partially
written file in the filesystem while the function still returns None. -/
def download_pdf (fs : FS) (fname : String) (resp : PdfResponse) :
    Option String × FS :=
  match resp with
  | .transportError => (none, fs)
  | .resp status body =>
    if 400 ≤ status then (none, fs)
    else
      let path := pdfFilePath fname
      match body with
      | .complete chunks => (some path, fsSet fs path (writeChunks chunks))
      | .failsAfter delivered => (none, fsSet fs path (writeChunks delivered))

/-- Embedding of clean_up (src/main.py lines 55 to 57). The source calls it
with a value that may be None (when download_pdf failed); os.path.exists(None)
calls os.stat(None), which raises TypeError (only OSError and ValueError are
swallowed by os.path.exists), and clean_up does not catch it. -/
def clean_up (fs : FS) (p : Option String) : Except PyError FS :=
  match p with
  | none => .error .typeError
  | some s => .ok (if (fsLookup fs s).isSome then fsRemove fs s else fs)

/-- The single-quote character, on which the source splits the onclick
attribute of a document link. -/
def quoteChar : Char := Char.ofNat 39

/-- The single-quote character as a one-character string, for fixtures. -/
def QUOTE : String := String.mk [quoteChar]

/-- The non-breaking-space character the source replaces in the parties
heading. -/
def nbspChar : Char := Char.ofNat 160

/-- Python str.split with a one-character separator, by structural recursion
over the character list. An empty separator never occurs in the source. -/
def splitChars (sep : Char) : List Char → List Char → List String
  | [], acc => [String.mk acc.reverse]
  | c :: rest, acc =>
    if c = sep then String.mk acc.reverse :: splitChars sep rest []
    else splitChars sep rest (c :: acc)

/-- Python str.split with a one-character separator. -/
def pySplit (sep : Char) (s : String) : List String := splitChars sep s.data []

/-- The whitespace characters str.strip removes in the pages this scraper
sees: space, tab, newline, carriage return and the non-breaking space
(Python strips all Unicode whitespace; these are the ones that occur). -/
def pyWhitespace (c : Char) : Bool :=
  c = Char.ofNat 32 || c = Char.ofNat 9 || c = Char.ofNat 10 ||
  c = Char.ofNat 13 || c = nbspChar

/-- Python str.strip: drop leading and trailing whitespace. -/
def pyStrip (s : String) : String :=
  String.mk (((s.data.dropWhile pyWhitespace).reverse.dropWhile
    pyWhitespace).reverse)

/-- Python str.replace with a one-character pattern and replacement. -/
def pyReplaceChar (old new : Char) (s : String) : String :=
  String.mk (s.data.map (fun c => if c = old then new else c))

/-- An anchor element (a tag) inside a table cell, with its optional onclick
attribute (pdf_link.get("onclick")). -/
structure Anchor where
  onclick : Option String
deriving DecidableEq, Repr

/-- One td cell of an order-history row: its text and the first embedded
anchor, when one exists (cells[i].text, cells[1].find("a")). -/
structure Cell where
  text : String
  anchor : Option Anchor
deriving DecidableEq, Repr

/-- One table row, as the list of its td cells (row.find_all("td")). -/
abbrev Row := List Cell

/-- The url entry of the dict built by parse_order_row. A Python dict key can
be missing, present with value None, or present with a string; the three are
distinguishable in the persisted record, so the embedding keeps all three. -/
inductive UrlField
  | absent
  | null
  | url (u : String)
deriving DecidableEq, Repr

/-- The dict returned by parse_order_row (keys snumber, case_number,
date_of_order, corrigenda_link, hindi_order, url). -/
structure OrderRecord where
  snumber : String
  case_number : String
  date_of_order : String
  corrigenda_link : String
  hindi_order : String
  url : UrlField
deriving DecidableEq, Repr

/-- Embedding of parse_order_row (src/main.py lines 79 to 100). The function
has no try block, so every exception escapes it:
- fewer than five td cells raises IndexError at the dict construction;
- an onclick attribute without a quoted segment raises IndexError at
  split-subscript 1;
- after a failed download, clean_up(None) raises TypeError.
The dl, fname and upl arguments are the oracles for the network download,
the generated uuid file name, and the Azure upload result (upload_pdf_to_azure
returns the blob url, or None when any exception occurred there).
Python truthiness: the document branch is taken only when the anchor exists
and its onclick attribute is a non-empty string. -/
def parse_order_row (row : Row) (dl : PdfResponse) (fname : String)
    (upl : Option String) (fs : FS) : Except PyError (OrderRecord × FS) :=
  match row with
  | c0 :: c1 :: c2 :: c3 :: c4 :: _ =>
    let base : UrlField → OrderRecord := fun u =>
      { snumber := pyStrip c0.text
        case_number := pyStrip c1.text
        date_of_order := pyStrip c2.text
        corrigenda_link := pyStrip c3.text
        hindi_order := pyStrip c4.text
        url := u }
    match c1.anchor with
    | some a =>
      match a.onclick with
      | some oc =>
        if oc = "" then .ok (base .null, fs)
        else
          match (pySplit quoteChar oc).get? 1 with
          | none => .error .indexError
          | some _pdfPath =>
            let res := download_pdf fs fname dl
            let u : UrlField :=
              match res.1 with
              | some _ => (match upl with | some link => .url link | none => .null)
              | none => .absent
            match clean_up res.2 res.1 with
            | .error e => .error e
            | .ok fs2 => .ok (base u, fs2)
      | none => .ok (base .null, fs)
    | none => .ok (base .null, fs)
  | _ => .error .indexError

/-- One h5 heading block of the case-detail page: its text and the texts of
its span sub-elements (all_heading[i].text, all_heading[1].find_all("span")). -/
structure Heading where
  text : String
  spans : List String
deriving DecidableEq, Repr

/-- The parsed case-detail page: its h5 heading blocks and, when present, the
first table as the list of its tr rows (soup.find("table"),
table.find_all("tr")). -/
structure CasePage where
  headings : List Heading
  table : Option (List Row)
deriving DecidableEq, Repr

/-- The network outcome of one casetype1.do request. -/
inductive CaseResponse
  | transportError
  | ok (status : Nat) (page : CasePage)
deriving DecidableEq, Repr

/-- The dict built by get_case_details and persisted by the driver. The
case_info key is absent until the driver adds it. -/
structure CaseData where
  parties : String
  status : String
  next_date : String
  orders : List OrderRecord
  case_info : Option String
deriving DecidableEq, Repr

/-- Sequencing of the per-row extractions in source order: exceptions raised
by a worker surface when its result is consumed, so the first failing row
(in row order) aborts the whole extraction, exactly as iterating
executor.map results does. The Nat argument is the position of the first
row of the list within the full row sequence. -/
def mapIdxM (ext : Nat → Row → Except PyError OrderRecord) :
    Nat → List Row → Except PyError (List OrderRecord)
  | _, [] => .ok []
  | i, row :: rest =>
    match ext i row with
    | .error e => .error e
    | .ok rec =>
      match mapIdxM ext (i + 1) rest with
      | .error e => .error e
      | .ok recs => .ok (rec :: recs)

/-- Order extraction of get_case_details: when no table is present the case
has zero orders; otherwise every tr row except the first (the header) is fed
to the row extractor. -/
def extractOrders (ext : Nat → Row → Except PyError OrderRecord)
    (tbl : Option (List Row)) : Except PyError (List OrderRecord) :=
  match tbl with
  | none => .ok []
  | some trs => mapIdxM ext 0 (trs.drop 1)

/-- Embedding of get_case_details (src/main.py lines 103 to 141). The try
block catches only requests.RequestException (transport errors and
raise_for_status on statuses of 400 and above) and converts them to None;
IndexError or TypeError raised by a row extraction propagates out of the
function (Except.error). Fewer than two h5 headings yields None; fewer than
two spans in the second heading leaves status and next_date as the empty
strings the dict was initialised with, and the case is still returned.
The ext argument abstracts one row extraction (parse_order_row with the
network oracles of that row); rowExtract below instantiates it. -/
def get_case_details (resp : CaseResponse)
    (ext : Nat → Row → Except PyError OrderRecord) :
    Except PyError (Option CaseData) :=
  match resp with
  | .transportError => .ok none
  | .ok status page =>
    if 400 ≤ status then .ok none
    else
      match page.headings with
      | h0 :: h1 :: _ =>
        let parties := pyReplaceChar nbspChar (Char.ofNat 32) (pyStrip h0.text)
        let sn : String × String :=
          match h1.spans with
          | s0 :: s1 :: _ => (pyStrip s0, pyStrip s1)
          | _ => ("", "")
        match extractOrders ext page.table with
        | .error e => .error e
        | .ok os =>
          .ok (some { parties := parties, status := sn.1, next_date := sn.2,
                      orders := os, case_info := none })
      | _ => .ok none

/-- The row extractor exactly as the source instantiates it: the lambda
passed to executor.map closes over the shared session; each row i gets the
network download outcome dls i, the generated file name fnames i and the
upload outcome upls i of its own document pipeline. Each worker sees the
filesystem as of the start of the case; the per-download file names are
unique, so the workers touch disjoint paths. -/
def rowExtract (dls : Nat → PdfResponse) (fnames : Nat → String)
    (upls : Nat → Option String) (fs : FS) (i : Nat) (row : Row) :
    Except PyError OrderRecord :=
  (parse_order_row row (dls i) (fnames i) (upls i) fs).map Prod.fst

/-- Completion-order model of the ThreadPoolExecutor: the workers finish in
the order given by sched, and each completion stores its result in the slot
of its own row index, never by append order. -/
def fillSlots (f : Nat → α → β) (xs : List α) :
    List Nat → (Nat → Option β) → Nat → Option β
  | [], acc => acc
  | k :: rest, acc =>
    fillSlots f xs rest (fun i => if i = k then (xs.get? k).map (f k) else acc i)

/-- The result list read back from the slots, in row-index order, after the
workers completed in the order sched. -/
def executorMap (f : Nat → α → β) (xs : List α) (sched : List Nat) :
    List (Option β) :=
  (List.range xs.length).map (fillSlots f xs sched (fun _ => none))

/-- The fixed case-type catalog of the source (REQUIRED_CASE_TYPES). -/
def REQUIRED_CASE_TYPES : List String :=
  ["RFA(OS)(COMM)", "FAO(OS) (COMM)", "EFA(OS)  (COMM)", "EFA(COMM)",
   "RFA(COMM)", "FAO(COMM)", "CS(COMM)", "O.M.P.(I) (COMM.)",
   "O.M.P. (E) (COMM.)", "O.M.P. (J) (COMM.)", "O.M.P. (T) (COMM.)",
   "O.M.P. (COMM)", "ARB. A. (COMM.)", "C.O. (COMM.IPD-TM)",
   "C.O.(COMM.IPD-CR)", "C.O.(COMM.IPD-PAT)", "C.A.(COMM.IPD-GI)",
   "C.A.(COMM.IPD-PAT)", "C.A.(COMM.IPD-PV)", "C.A.(COMM.IPD-TM)"]

/-- The configured start year (FROM_YEAR). -/
def FROM_YEAR : Nat := 2023

/-- The response oracle of the driver: the overall outcome of
get_case_details for a given (filing year, case type, case number) probe.
None covers both a non-existent case and every failure the resolver absorbs;
a dict is returned exactly when the case resolved. (An exception escaping
get_case_details crashes the process; the driver state machine below models
the normal, exception-free operation the driver claims are about.) -/
abbrev Oracle := Nat → String → Nat → Option CaseData

/-- The annotation string of the driver:
the f-string case_type/case_no/FROM_YEAR with slash separators. -/
def case_info_string (t : String) (n : Nat) (y : Nat) : String :=
  t ++ "/" ++ toString n ++ "/" ++ toString y

/-- The driver mutation result["case_info"] = case_info_string. -/
def withCaseInfo (t : String) (n : Nat) (y : Nat) (d : CaseData) : CaseData :=
  { d with case_info := some (case_info_string t n y) }

/-- The EnumerationCursor: the complete mutable state of the nested loops of
the __main__ block, flattened into one state record. log is the ordered list
of documents passed to save_to_mongodb; halted records that the outer while
loop has exited. -/
structure Cursor where
  year : Nat
  typeIdx : Nat
  case_no : Nat
  streak : Nat
  log : List CaseData
  halted : Bool
deriving DecidableEq, Repr

/-- One transition of the driver (src/main.py lines 156 to 181), the
small-step flattening of the three nested loops:
- while typeIdx points into the catalog, one step performs one probe of the
  inner while-True loop: a miss increments continuous_no_case, a hit appends
  the annotated record to the persist log and leaves the counter unchanged;
  the break test (continuous_no_case == 20) runs after either branch and, on
  break, the next for-iteration begins the next type with case_no = 1 and a
  fresh counter (the assignments at the top of the for body);
- when the catalog is exhausted, FROM_YEAR is decremented and the while
  condition FROM_YEAR >= 2000 is re-checked: below 2000 the crawl halts,
  otherwise the next year restarts at the first type. -/
def driverStep (types : List String) (o : Oracle) (c : Cursor) : Cursor :=
  if c.halted then c
  else if h : c.typeIdx < types.length then
    let t := types.get ⟨c.typeIdx, h⟩
    match o c.year t c.case_no with
    | none =>
      if c.streak + 1 = 20 then
        { c with typeIdx := c.typeIdx + 1, case_no := 1, streak := 0 }
      else
        { c with streak := c.streak + 1, case_no := c.case_no + 1 }
    | some d =>
      let log2 := c.log ++ [withCaseInfo t c.case_no c.year d]
      if c.streak = 20 then
        { c with typeIdx := c.typeIdx + 1, case_no := 1, streak := 0, log := log2 }
      else
        { c with case_no := c.case_no + 1, log := log2 }
  else
    if c.year - 1 < 2000 then { c with year := c.year - 1, halted := true }
    else { c with year := c.year - 1, typeIdx := 0, case_no := 1, streak := 0 }

/-- The initial cursor: FROM_YEAR = 2023, first case type, case_no = 1,
fresh miss counter, nothing persisted. -/
def initCursor : Cursor :=
  { year := FROM_YEAR, typeIdx := 0, case_no := 1, streak := 0,
    log := [], halted := false }

/-- The state at the top of the for body for one (year, type index): the
moment the source has just run continuous_no_case = 0 and case_no = 1. -/
def typeEntry (y i : Nat) (L : List CaseData) : Cursor :=
  { year := y, typeIdx := i, case_no := 1, streak := 0, log := L, halted := false }

/-- Number of misses among the probes 1..n of one (year, type) inner loop:
the value of continuous_no_case after n probes, since the source never
resets it inside a type. -/
def missCount (o : Oracle) (y : Nat) (t : String) : Nat → Nat
  | 0 => 0
  | n + 1 => missCount o y t n + (match o y t (n + 1) with
      | none => 1
      | some _ => 0)

/-- The records persisted during the probes 1..n of one (year, type) inner
loop, in probe order, each annotated with its case_info. -/
def hitLog (o : Oracle) (y : Nat) (t : String) : Nat → List CaseData
  | 0 => []
  | n + 1 => hitLog o y t n ++ (match o y t (n + 1) with
      | none => []
      | some d => [withCaseInfo t (n + 1) y d])

/-- A concrete resolved case record used by the witness oracles. -/
def dummyCase : CaseData :=
  { parties := "A vs B", status := "Pending", next_date := "12-05-2024",
    orders := [], case_info := none }

/-- Witness oracle for the miss-streak claim: probes 1 to 19 miss, probe 20
hits, probe 21 misses again. -/
def probeOracle5 : Oracle := fun _ _ n => if n = 20 then some dummyCase else none

/-- Counterexample oracle: every probe resolves, so no miss is ever recorded
and the miss-streak stop condition of the inner loop can never fire. -/
def allHitOracle : Oracle := fun _ _ _ => some dummyCase

/-- A td cell without any embedded anchor. -/
def plainCell (s : String) : Cell := { text := s, anchor := none }

/-- A five-cell order row without a document link. -/
def plainRow : Row :=
  [plainCell "1", plainCell "CS(COMM) 1/2023", plainCell "02-01-2024",
   plainCell "", plainCell "NO"]

/-- An onclick attribute of a document-trigger link, holding the upstream
file path between single quotes. -/
def onclick1 : String :=
  "javascript:GetFilePath(" ++ QUOTE ++ "abc.pdf" ++ QUOTE ++ ")"

/-- A five-cell order row whose case-number cell carries a document link. -/
def linkRow : Row :=
  [plainCell "1",
   { text := "CS(COMM) 1/2023", anchor := some { onclick := some onclick1 } },
   plainCell "02-01-2024", plainCell "", plainCell "NO"]

/-- A well-formed heading pair shared by the page fixtures. -/
def headings2 : List Heading :=
  [{ text := "A vs B", spans := [] },
   { text := "", spans := ["Pending", "12-05-2024"] }]

/-- A case page whose results table has a header row and one data row with
no td cells at all. -/
def pageShortRow : CasePage :=
  { headings := headings2, table := some [plainRow, []] }

/-- A case page whose results table has a header row and one data row with a
document link. -/
def pageLinkRow : CasePage :=
  { headings := headings2, table := some [plainRow, linkRow] }

/-- A case page whose second heading block has no span sub-elements, and no
results table. -/
def pageNoSpans : CasePage :=
  { headings := [{ text := "A vs B", spans := [] }, { text := "", spans := [] }],
    table := none }

/-- A case page with a header row and one plain data row, used by the
ordering witness. -/
def pageOneRow : CasePage :=
  { headings := headings2, table := some [plainRow, plainRow] }

/-- The row carries a usable document trigger: the case-number cell has an
anchor whose onclick attribute is a non-empty string containing a quoted
segment (so that split on the quote has an element at position 1). -/
def docTrigger (row : Row) : Bool :=
  match row with
  | _ :: c1 :: _ =>
    match c1.anchor with
    | some a =>
      match a.onclick with
      | some oc =>
        if oc = "" then false else ((pySplit quoteChar oc).get? 1).isSome
      | none => false
    | none => false
  | _ => false

/-- The five display fields shared by the row fixtures above, with a given
url field (plainRow and linkRow have identical cell texts). -/
def rowRecord (u : UrlField) : OrderRecord :=
  { snumber := "1", case_number := "CS(COMM) 1/2023",
    date_of_order := "02-01-2024", corrigenda_link := "", hindi_order := "NO",
    url := u }

/-- Modelled from the amended contract of the Document Fetcher: a transport
error at request time or a non-success status yields no file with the
filesystem untouched; a complete stream yields the file path with the whole
streamed content stored; a mid-stream transport failure yields no file but
leaves the partially written file on disk, unmanaged. -/
def downloadContract (fs : FS) (fname : String) (resp : PdfResponse) :
    Option String × FS :=
  match resp with
  | .transportError => (none, fs)
  | .resp status body =>
    if status < 400 then
      match body with
      | .complete chunks =>
        (some (pdfFilePath fname),
         fsSet fs (pdfFilePath fname) (writeChunks chunks))
      | .failsAfter delivered =>
        (none, fsSet fs (pdfFilePath fname) (writeChunks delivered))
    else (none, fs)

/-- One probe step on a miss that does not reach the threshold. -/
lemma driverStep_miss {types : List String} {o : Oracle} {y i n st : Nat}
    {L : List CaseData} (hi : i < types.length)
    (hm : o y types[i] n = none) (hst : st + 1 ≠ 20) :
    driverStep types o ⟨y, i, n, st, L, false⟩ = ⟨y, i, n + 1, st + 1, L, false⟩ := by
  simp [driverStep, hi, hm, hst]

/-- One probe step on the miss that reaches the threshold: the inner loop
breaks and the next type begins with case_no = 1 and a fresh counter. -/
lemma driverStep_miss_break {types : List String} {o : Oracle} {y i n st : Nat}
    {L : List CaseData} (hi : i < types.length)
    (hm : o y types[i] n = none) (hst : st + 1 = 20) :
    driverStep types o ⟨y, i, n, st, L, false⟩ = ⟨y, i + 1, 1, 0, L, false⟩ := by
  simp [driverStep, hi, hm, hst]

/-- One probe step on a hit: the annotated record is appended to the persist
log, the counter is left unchanged, and probing continues at case_no + 1. -/
lemma driverStep_hit {types : List String} {o : Oracle} {y i n st : Nat}
    {L : List CaseData} {d : CaseData} (hi : i < types.length)
    (hm : o y types[i] n = some d) (hst : st ≠ 20) :
    driverStep types o ⟨y, i, n, st, L, false⟩ =
      ⟨y, i, n + 1, st, L ++ [withCaseInfo types[i] n y d], false⟩ := by
  simp [driverStep, hi, hm, hst]

/-- Each probe changes the cumulative miss counter by at most one. -/
lemma missCount_succ_le (o : Oracle) (y : Nat) (t : String) (n : Nat) :
    missCount o y t (n + 1) ≤ missCount o y t n + 1 := by
  simp only [missCount]
  rcases o y t (n + 1) with _ | d <;> simp

/-- The cumulative miss counter never decreases. -/
lemma missCount_le_succ (o : Oracle) (y : Nat) (t : String) (n : Nat) :
    missCount o y t n ≤ missCount o y t (n + 1) := by
  simp only [missCount]
  rcases o y t (n + 1) with _ | d <;> simp

/-- Closed form of the inner while-True loop: as long as the cumulative miss
count stays at 19 or below, after k probes the driver is still inside the
same (year, type), about to probe case number k + 1, with continuous_no_case
equal to the cumulative miss count (a hit never resets it) and the hits so
far appended, in probe order, to the persist log. -/
lemma inner_run {types : List String} {o : Oracle} {y i : Nat}
    {L : List CaseData} (hi : i < types.length) :
    ∀ k, missCount o y types[i] k ≤ 19 →
      (driverStep types o)^[k] (typeEntry y i L) =
        ⟨y, i, k + 1, missCount o y types[i] k,
          L ++ hitLog o y types[i] k, false⟩ := by
  intro k
  induction k with
  | zero => intro _; simp [typeEntry, missCount, hitLog]
  | succ k ih =>
    intro hk
    have hk0 : missCount o y types[i] k ≤ 19 :=
      le_trans (missCount_le_succ o y types[i] k) hk
    rw [Function.iterate_succ_apply', ih hk0]
    rcases hp : o y types[i] (k + 1) with _ | d
    · have hs : missCount o y types[i] k + 1 ≠ 20 := by
        have : missCount o y types[i] (k + 1) =
            missCount o y types[i] k + 1 := by simp [missCount, hp]
        omega
      rw [driverStep_miss hi hp hs]
      have h1 : missCount o y types[i] (k + 1) =
          missCount o y types[i] k + 1 := by simp [missCount, hp]
      have h2 : hitLog o y types[i] (k + 1) = hitLog o y types[i] k := by
        simp [hitLog, hp]
      rw [h1, h2]
    · have hs : missCount o y types[i] k ≠ 20 := by omega
      rw [driverStep_hit hi hp hs]
      have h1 : missCount o y types[i] (k + 1) =
          missCount o y types[i] k := by simp [missCount, hp]
      have h2 : hitLog o y types[i] (k + 1) =
          hitLog o y types[i] k ++ [withCaseInfo types[i] (k + 1) y d] := by
        simp [hitLog, hp]
      rw [h1, h2, List.append_assoc]

/-- The inner loop terminates exactly at the probe where the cumulative miss
count reaches 20: the state after that probe is the entry state of the next
case type. -/
lemma inner_breaks {types : List String} {o : Oracle} {y i : Nat}
    {L : List CaseData} (hi : i < types.length) (k : Nat)
    (h19 : missCount o y types[i] k = 19)
    (hm : o y types[i] (k + 1) = none) :
    (driverStep types o)^[k + 1] (typeEntry y i L) =
      typeEntry y (i + 1) (L ++ hitLog o y types[i] k) := by
  rw [Function.iterate_succ_apply', inner_run hi k (by omega)]
  rw [driverStep_miss_break hi hm (by omega)]
  rfl

/-- When the catalog is exhausted and the decremented year falls below the
floor, the outer while loop exits. -/
lemma driverStep_rollHalt {types : List String} {o : Oracle} {y : Nat}
    {L : List CaseData} (hy : y - 1 < 2000) :
    driverStep types o (typeEntry y types.length L) =
      ⟨y - 1, types.length, 1, 0, L, true⟩ := by
  simp [driverStep, typeEntry, hy]

/-- When the catalog is exhausted and the decremented year is still at or
above the floor, the next year begins at the first case type. -/
lemma driverStep_rollNext {types : List String} {o : Oracle} {y : Nat}
    {L : List CaseData} (hy : ¬ y - 1 < 2000) :
    driverStep types o (typeEntry y types.length L) = typeEntry (y - 1) 0 L := by
  simp [driverStep, typeEntry, hy]

/-- If the (year, type) oracle accumulates 20 misses at some point, the inner
loop for that type terminates and hands control to the next type entry. -/
lemma inner_terminates {types : List String} {o : Oracle} {y i : Nat}
    {L : List CaseData} (hi : i < types.length)
    (hex : ∃ k, 20 ≤ missCount o y types[i] k) :
    ∃ m L2, (driverStep types o)^[m] (typeEntry y i L) =
      typeEntry y (i + 1) L2 := by
  classical
  have hK : 20 ≤ missCount o y types[i] (Nat.find hex) := Nat.find_spec hex
  have hmin : ∀ j, j < Nat.find hex → ¬ 20 ≤ missCount o y types[i] j :=
    fun j hj => Nat.find_min hex hj
  have hK0 : Nat.find hex ≠ 0 := by
    intro h0
    rw [h0] at hK
    simp [missCount] at hK
  obtain ⟨k, hk⟩ : ∃ k, Nat.find hex = k + 1 := ⟨Nat.find hex - 1, by omega⟩
  rw [hk] at hK
  have hlt : missCount o y types[i] k < 20 := by
    have := hmin k (by omega)
    omega
  have hle : missCount o y types[i] (k + 1) ≤ missCount o y types[i] k + 1 :=
    missCount_succ_le o y types[i] k
  have h19 : missCount o y types[i] k = 19 := by omega
  have hnone : o y types[i] (k + 1) = none := by
    rcases hp : o y types[i] (k + 1) with _ | d
    · rfl
    · have : missCount o y types[i] (k + 1) = missCount o y types[i] k := by
        simp [missCount, hp]
      omega
  exact ⟨k + 1, L ++ hitLog o y types[i] k, inner_breaks hi k h19 hnone⟩

/-- If every type of the catalog accumulates 20 misses under this year, the
middle for loop finishes the whole catalog. -/
lemma types_finish {types : List String} {o : Oracle} {y : Nat} :
    ∀ (d i : Nat) (L : List CaseData), i + d = types.length →
      (∀ i2 (h2 : i2 < types.length), ∃ k, 20 ≤ missCount o y types[i2] k) →
      ∃ m L2, (driverStep types o)^[m] (typeEntry y i L) =
        typeEntry y types.length L2 := by
  intro d
  induction d with
  | zero =>
    intro i L hi _
    have : i = types.length := by omega
    subst this
    exact ⟨0, L, rfl⟩
  | succ d ih =>
    intro i L hi H
    have hlt : i < types.length := by omega
    obtain ⟨m1, L1, e1⟩ := inner_terminates hlt (H i hlt)
    obtain ⟨m2, L2, e2⟩ := ih (i + 1) L1 (by omega) H
    exact ⟨m2 + m1, L2, by rw [Function.iterate_add_apply, e1, e2]⟩

/-- If every (year, type) pair in range accumulates 20 misses, the outer
while loop runs the years down to the floor and halts. -/
lemma years_finish {types : List String} {o : Oracle} :
    ∀ (b y : Nat) (L : List CaseData), y ≤ 1999 + b → 2000 ≤ y → y ≤ 2023 →
      (∀ y2, 2000 ≤ y2 → y2 ≤ 2023 → ∀ i2 (h2 : i2 < types.length),
        ∃ k, 20 ≤ missCount o y2 types[i2] k) →
      ∃ n, ((driverStep types o)^[n] (typeEntry y 0 L)).halted = true := by
  intro b
  induction b with
  | zero => intro y L h1 h2 _ _; omega
  | succ b ih =>
    intro y L h1 h2 h3 H
    obtain ⟨m1, L1, e1⟩ :=
      types_finish types.length 0 L (by omega) (H y h2 h3)
    by_cases hy : y - 1 < 2000
    · refine ⟨1 + m1, ?_⟩
      rw [Function.iterate_add_apply, e1, Function.iterate_one,
        driverStep_rollHalt hy]
    · obtain ⟨n2, e2⟩ := ih (y - 1) L1 (by omega) (by omega) (by omega) H
      refine ⟨n2 + (1 + m1), ?_⟩
      rw [Function.iterate_add_apply, Function.iterate_add_apply, e1,
        Function.iterate_one, driverStep_rollNext hy]
      exact e2

/-- Under the all-hit oracle the driver never leaves the first case type of
the first year: the miss counter stays 0 forever, so the inner loop never
breaks and the crawl never halts. -/
lemma allHit_invariant : ∀ n,
    ((driverStep REQUIRED_CASE_TYPES allHitOracle)^[n] initCursor).year = 2023 ∧
    ((driverStep REQUIRED_CASE_TYPES allHitOracle)^[n] initCursor).typeIdx = 0 ∧
    ((driverStep REQUIRED_CASE_TYPES allHitOracle)^[n] initCursor).streak = 0 ∧
    ((driverStep REQUIRED_CASE_TYPES allHitOracle)^[n] initCursor).halted = false := by
  intro n
  induction n with
  | zero => exact ⟨rfl, rfl, rfl, rfl⟩
  | succ n ih =>
    obtain ⟨hy, hi, hs, hh⟩ := ih
    rw [Function.iterate_succ_apply']
    rcases hst : (driverStep REQUIRED_CASE_TYPES allHitOracle)^[n] initCursor with
      ⟨y, i, m, st, L, hl⟩
    rw [hst] at hy hi hs hh
    simp only at hy hi hs hh
    subst hy; subst hi; subst hs; subst hh
    rw [driverStep_hit (by decide) rfl (by decide)]
    exact ⟨rfl, rfl, rfl, rfl⟩

/-- Claim C5: within one (year, case_type) inner loop a successful resolution
never resets the miss counter: with 19 cumulative misses among the first m
probes, a hit at probe m + 1 leaves the counter at 19 (the loop still
running), and one further miss at probe m + 2 brings the cumulative count to
20 and terminates the inner loop at exactly that probe. -/
theorem claim_C5_no_reset {types : List String} {o : Oracle} {y i m : Nat}
    {L : List CaseData} {d : CaseData} (hi : i < types.length)
    (h19 : missCount o y types[i] m = 19)
    (hhit : o y types[i] (m + 1) = some d)
    (hmiss : o y types[i] (m + 2) = none) :
    ((driverStep types o)^[m + 1] (typeEntry y i L)).streak = 19 ∧
    ((driverStep types o)^[m + 1] (typeEntry y i L)).typeIdx = i ∧
    (driverStep types o)^[m + 2] (typeEntry y i L) =
      typeEntry y (i + 1) (L ++ hitLog o y types[i] (m + 1)) := by
  have hmc1 : missCount o y types[i] (m + 1) = 19 := by
    simp [missCount, hhit, h19]
  refine ⟨?_, ?_, ?_⟩
  · rw [inner_run hi (m + 1) (by omega), hmc1]
  · rw [inner_run hi (m + 1) (by omega)]
  · have := inner_breaks (L := L) hi (m + 1) hmc1 hmiss
    rw [this]

/-- Witness for claim C5: the concrete oracle that misses on probes 1 to 19,
hits on probe 20 and misses on probe 21 reaches the threshold at probe 21. -/
theorem claim_C5_witness :
    missCount probeOracle5 2023 (REQUIRED_CASE_TYPES[0]) 19 = 19 ∧
    probeOracle5 2023 (REQUIRED_CASE_TYPES[0]) 20 = some dummyCase ∧
    probeOracle5 2023 (REQUIRED_CASE_TYPES[0]) 21 = none ∧
    (((driverStep REQUIRED_CASE_TYPES probeOracle5)^[20] (typeEntry 2023 0 [])).streak = 19 ∧
     ((driverStep REQUIRED_CASE_TYPES probeOracle5)^[20] (typeEntry 2023 0 [])).typeIdx = 0 ∧
     (driverStep REQUIRED_CASE_TYPES probeOracle5)^[21] (typeEntry 2023 0 []) =
       typeEntry 2023 1 ([] ++ hitLog probeOracle5 2023 (REQUIRED_CASE_TYPES[0]) 20)) :=
  ⟨by decide, by decide, by decide,
   claim_C5_no_reset (d := dummyCase) (by decide) (by decide) (by decide) (by decide)⟩

/-- Claim C6: at the probe whose miss brings the counter to the threshold of
20, the driver advances the case type index by exactly one and the next type
starts with case_number 1 and miss counter 0. -/
theorem claim_C6_threshold_advance {types : List String} {o : Oracle}
    {c : Cursor} (h0 : c.halted = false) (hi : c.typeIdx < types.length)
    (hm : o c.year types[c.typeIdx] c.case_no = none)
    (hs : c.streak + 1 = 20) :
    driverStep types o c =
      { c with typeIdx := c.typeIdx + 1, case_no := 1, streak := 0 } := by
  rcases c with ⟨y, i, n, st, L, hl⟩
  simp only at h0 hi hm hs
  subst h0
  exact driverStep_miss_break hi hm hs

/-- Witness for claim C6: with the miss counter at 19, one more miss on the
first catalog type advances the type index from 0 to 1 and resets the probe
state. -/
theorem claim_C6_witness :
    driverStep REQUIRED_CASE_TYPES (fun _ _ _ => none)
        ⟨2023, 0, 5, 19, [], false⟩ = ⟨2023, 1, 1, 0, [], false⟩ :=
  claim_C6_threshold_advance rfl (by decide) rfl rfl

/-- Claim C9 counterexample: the traversal does not terminate for every
response oracle — under the all-hit oracle the inner case_number loop never
accumulates any miss, so the crawl never halts. -/
theorem claim_C9_counterexample :
    ¬ ∀ o : Oracle, ∃ n,
      ((driverStep REQUIRED_CASE_TYPES o)^[n] initCursor).halted = true := by
  intro h
  obtain ⟨n, hn⟩ := h allHitOracle
  have hfalse := (allHit_invariant n).2.2.2
  rw [hn] at hfalse
  cases hfalse

/-- Claim C9 as amended: the traversal is a deterministic function of the
oracle, and it terminates whenever every (year, case_type) pair inside the
configured range accumulates 20 cumulative misses at some probe depth. -/
theorem claim_C9_amended {o : Oracle}
    (H : ∀ y, 2000 ≤ y → y ≤ 2023 → ∀ i (h : i < REQUIRED_CASE_TYPES.length),
      ∃ k, 20 ≤ missCount o y REQUIRED_CASE_TYPES[i] k) :
    ∃ n, ((driverStep REQUIRED_CASE_TYPES o)^[n] initCursor).halted = true := by
  have hinit : initCursor = typeEntry 2023 0 [] := rfl
  rw [hinit]
  exact years_finish 24 2023 [] (by omega) (by omega) (by omega) H

/-- Witness for the amended claim C9: under the all-miss oracle every inner
loop reaches 20 misses by probe 20, and the crawl halts. -/
theorem claim_C9_witness :
    ∃ n, ((driverStep REQUIRED_CASE_TYPES (fun _ _ _ => none))^[n]
      initCursor).halted = true :=
  claim_C9_amended (fun _ _ _ _ _ => ⟨20, le_refl 20⟩)

/-- Claim C10: a successful resolution appends exactly one record to the
persist log at the very step of the probe, annotated with the case_info
string case_type, slash, case_number, slash, filing_year. -/
theorem claim_C10_case_info {types : List String} {o : Oracle} {c : Cursor}
    {d : CaseData} (h0 : c.halted = false) (hi : c.typeIdx < types.length)
    (hm : o c.year types[c.typeIdx] c.case_no = some d) :
    (driverStep types o c).log = c.log ++
      [{ d with case_info := some (types[c.typeIdx] ++ "/" ++
          toString c.case_no ++ "/" ++ toString c.year) }] := by
  rcases c with ⟨y, i, n, st, L, hl⟩
  simp only at h0 hi hm
  subst h0
  by_cases hst : st = 20
  · simp [driverStep, hi, hm, hst, withCaseInfo, case_info_string]
  · rw [driverStep_hit hi hm hst]
    simp [withCaseInfo, case_info_string]

/-- Witness for claim C10: a hit at the initial cursor persists exactly one
record annotated with the concrete case_info string. -/
theorem claim_C10_witness :
    (driverStep REQUIRED_CASE_TYPES (fun _ _ _ => some dummyCase)
        initCursor).log =
      [] ++ [{ dummyCase with case_info := some (REQUIRED_CASE_TYPES[0] ++ "/" ++
        toString (1 : Nat) ++ "/" ++ toString (2023 : Nat)) }] :=
  claim_C10_case_info rfl (by decide) rfl

/-- The slot written by a completion depends only on its row index: after
the completions listed in sched, slot i holds the result of row i whenever
i appears in sched, no matter where in sched it occurs. -/
lemma fillSlots_eq {α β : Type} (f : Nat → α → β) (xs : List α) :
    ∀ (sched : List Nat) (acc : Nat → Option β) (i : Nat),
      fillSlots f xs sched acc i =
        if i ∈ sched then (xs.get? i).map (f i) else acc i := by
  intro sched
  induction sched with
  | nil => intro acc i; simp [fillSlots]
  | cons k rest ih =>
    intro acc i
    rw [fillSlots, ih]
    by_cases hik : i = k
    · subst hik
      by_cases hir : i ∈ rest <;> simp [hir]
    · by_cases hir : i ∈ rest <;> simp [hir, hik]

/-- When every row index completes, the slot list read in index order is the
in-order map of the extraction over the rows, independent of the completion
order sched. -/
lemma executorMap_covered {α β : Type} (f : Nat → α → β) (xs : List α)
    (sched : List Nat) (hcov : ∀ i, i < xs.length → i ∈ sched) :
    executorMap f xs sched =
      (List.range xs.length).map (fun i => (xs.get? i).map (f i)) := by
  unfold executorMap
  refine List.map_congr_left ?_
  intro i hi
  rw [List.mem_range] at hi
  rw [fillSlots_eq, if_pos (hcov i hi)]

/-- When every row extraction succeeds, the sequenced extraction succeeds
with exactly the list of per-row results in source order. -/
lemma mapIdxM_ok {ext : Nat → Row → Except PyError OrderRecord}
    {r : Nat → OrderRecord} :
    ∀ (xs : List Row) (s : Nat),
      (∀ i (h : i < xs.length), ext (s + i) (xs.get ⟨i, h⟩) = .ok (r (s + i))) →
      mapIdxM ext s xs = .ok ((List.range xs.length).map (fun i => r (s + i))) := by
  intro xs
  induction xs with
  | nil => intro s _; simp [mapIdxM]
  | cons x rest ih =>
    intro s hr
    have h0 : ext s x = .ok (r s) := by
      have h00 := hr 0 (by simp)
      simpa using h00
    have hrest : ∀ i (h : i < rest.length),
        ext (s + 1 + i) (rest.get ⟨i, h⟩) = .ok (r (s + 1 + i)) := by
      intro i h
      have h2 := hr (i + 1) (by simpa using Nat.succ_lt_succ h)
      have e : s + (i + 1) = s + 1 + i := by omega
      rw [e] at h2
      simpa using h2
    have hcomp : ((fun i => r (s + i)) ∘ Nat.succ) = fun i => r (s + 1 + i) := by
      funext i
      simp only [Function.comp]
      congr 1
      omega
    simp only [mapIdxM, h0, ih (s + 1) hrest, List.length_cons,
      List.range_succ_eq_map, List.map_cons, List.map_map, Nat.add_zero, hcomp]

/-- Claim C1 (code bug): a failed document download does not degrade
gracefully. In a row whose case-number cell has a document-trigger link, a
transport error in the download makes parse_order_row call clean_up(None),
which raises TypeError; get_case_details catches only RequestException, so
the error aborts the whole case resolution and propagates past the Driver. -/
theorem claim_C1_download_failure_crashes :
    parse_order_row linkRow PdfResponse.transportError "f" none [] =
      .error .typeError ∧
    get_case_details (CaseResponse.ok 200 pageLinkRow)
        (rowExtract (fun _ => PdfResponse.transportError) (fun _ => "f")
          (fun _ => none) []) = .error .typeError :=
  ⟨by decide, by decide⟩

/-- Claim C2 counterexample: a 200 response whose second heading block has
fewer than two span sub-elements is not treated as a parse error — the
resolver still returns a case record (with empty status and next-date),
not the absent result the claim asserts. -/
theorem claim_C2_counterexample :
    get_case_details (CaseResponse.ok 200 pageNoSpans)
        (fun _ _ => .error PyError.indexError) =
      .ok (some { parties := "A vs B", status := "", next_date := "",
                  orders := [], case_info := none }) ∧
    (Except.ok (some { parties := "A vs B", status := "", next_date := "",
                       orders := [], case_info := none }) :
        Except PyError (Option CaseData)) ≠ .ok none :=
  ⟨by decide, by decide⟩

/-- Claim C2 as amended: when the page parses (status below 400, at least
two heading blocks, row extraction raising nothing) but the second heading
block has fewer than two span sub-elements, the resolver still resolves the
case, leaving status and next-hearing-date as empty strings; only fewer than
two heading blocks (or a transport error or error status) yields no case. -/
theorem claim_C2_amended {status : Nat} {page : CasePage} {g j : Heading}
    {t : List Heading} {ext : Nat → Row → Except PyError OrderRecord}
    {os : List OrderRecord}
    (hst : status < 400) (hhd : page.headings = g :: j :: t)
    (hsp : j.spans.length < 2)
    (hord : extractOrders ext page.table = .ok os) :
    get_case_details (.ok status page) ext =
      .ok (some { parties := pyReplaceChar nbspChar (Char.ofNat 32)
                    (pyStrip g.text),
                  status := "", next_date := "", orders := os,
                  case_info := none }) := by
  have hnle : ¬ 400 ≤ status := by omega
  rcases hspv : j.spans with _ | ⟨s0, tail⟩
  · simp [get_case_details, hhd, hord, hnle, hspv]
  · rcases tail with _ | ⟨s1, ss⟩
    · simp [get_case_details, hhd, hord, hnle, hspv]
    · rw [hspv] at hsp
      simp at hsp
      omega

/-- Witness for the amended claim C2: the concrete zero-span page resolves
to a case with empty status and next-date. -/
theorem claim_C2_witness :
    get_case_details (CaseResponse.ok 200 pageNoSpans)
        (fun _ _ => .error PyError.indexError) =
      .ok (some { parties := pyReplaceChar nbspChar (Char.ofNat 32)
                    (pyStrip "A vs B"),
                  status := "", next_date := "", orders := [],
                  case_info := none }) :=
  @claim_C2_amended 200 pageNoSpans { text := "A vs B", spans := [] }
    { text := "", spans := [] } [] (fun _ _ => .error PyError.indexError) []
    (by decide) rfl (by decide) rfl

/-- Claim C3 counterexample: in a row without a document link, the url key
of the produced record is present with value None (null), not absent as the
claim asserts. -/
theorem claim_C3_counterexample :
    parse_order_row plainRow PdfResponse.transportError "f" none [] =
      .ok (rowRecord UrlField.null, []) ∧
    UrlField.null ≠ UrlField.absent :=
  ⟨by decide, by decide⟩

/-- Claim C3 as amended: in every record the extractor returns, the url key
is present — a non-null URL exactly when the row had a usable
document-trigger link, the download returned a file and the upload returned
a URL; in every other returned record (no link, empty onclick, failed
upload) it is present with the null value. A failed download returns no
record at all: the extractor raises instead. -/
theorem claim_C3_amended {row : Row} {dl : PdfResponse} {fname : String}
    {upl : Option String} {fs fs2 : FS} {rec : OrderRecord}
    (h : parse_order_row row dl fname upl fs = .ok (rec, fs2)) :
    rec.url ≠ UrlField.absent ∧
    ∀ u, rec.url = UrlField.url u ↔
      (docTrigger row = true ∧ (download_pdf fs fname dl).1.isSome = true ∧
       upl = some u) := by
  rcases row with _ | ⟨c0, row⟩
  · simp [parse_order_row] at h
  rcases row with _ | ⟨c1, row⟩
  · simp [parse_order_row] at h
  rcases row with _ | ⟨c2, row⟩
  · simp [parse_order_row] at h
  rcases row with _ | ⟨c3, row⟩
  · simp [parse_order_row] at h
  rcases row with _ | ⟨c4, row⟩
  · simp [parse_order_row] at h
  rcases ha : c1.anchor with _ | a
  · simp [parse_order_row, ha] at h
    obtain ⟨h1, h2⟩ := h
    subst h1
    refine ⟨by simp, fun u => ?_⟩
    simp [docTrigger, ha]
  · rcases hoc : a.onclick with _ | oc
    · simp [parse_order_row, ha, hoc] at h
      obtain ⟨h1, h2⟩ := h
      subst h1
      refine ⟨by simp, fun u => ?_⟩
      simp [docTrigger, ha, hoc]
    · by_cases hoce : oc = ""
      · simp [parse_order_row, ha, hoc, hoce] at h
        obtain ⟨h1, h2⟩ := h
        subst h1
        refine ⟨by simp, fun u => ?_⟩
        simp [docTrigger, ha, hoc, hoce]
      · rcases hsp : (pySplit quoteChar oc)[1]? with _ | seg
        · simp [parse_order_row, ha, hoc, hoce, hsp] at h
        · rcases hdl : (download_pdf fs fname dl).1 with _ | p
          · simp [parse_order_row, ha, hoc, hoce, hsp, hdl, clean_up] at h
          · rcases upl with _ | link
            · simp [parse_order_row, ha, hoc, hoce, hsp, hdl, clean_up] at h
              obtain ⟨h1, h2⟩ := h
              subst h1
              refine ⟨by simp, fun u => ?_⟩
              simp [docTrigger, ha, hoc, hoce, hsp, hdl]
            · simp [parse_order_row, ha, hoc, hoce, hsp, hdl, clean_up] at h
              obtain ⟨h1, h2⟩ := h
              subst h1
              refine ⟨by simp, fun u => ?_⟩
              simp [docTrigger, ha, hoc, hoce, hsp, hdl]

/-- Witness for the amended claim C3: a row with a usable link, a complete
download and a successful upload yields a record whose url is exactly the
uploaded blob URL. -/
theorem claim_C3_witness :
    (parse_order_row linkRow (PdfResponse.resp 200 (Body.complete [[7]])) "f"
        (some "https://blob/x.pdf") [] =
      .ok (rowRecord (UrlField.url "https://blob/x.pdf"), [])) ∧
    (rowRecord (UrlField.url "https://blob/x.pdf")).url ≠ UrlField.absent ∧
    ((rowRecord (UrlField.url "https://blob/x.pdf")).url =
        UrlField.url "https://blob/x.pdf" ↔
      (docTrigger linkRow = true ∧
       (download_pdf [] "f"
         (PdfResponse.resp 200 (Body.complete [[7]]))).1.isSome = true ∧
       (some "https://blob/x.pdf" : Option String) =
         some "https://blob/x.pdf")) := by
  have h : parse_order_row linkRow (PdfResponse.resp 200 (Body.complete [[7]]))
      "f" (some "https://blob/x.pdf") [] =
      .ok (rowRecord (UrlField.url "https://blob/x.pdf"), []) := by decide
  exact ⟨h, (claim_C3_amended h).1, (claim_C3_amended h).2 "https://blob/x.pdf"⟩

/-- Claim C4 (code bug): a data row with fewer than five columns does not
abort only that row. parse_order_row raises IndexError, which
get_case_details does not catch (it catches only RequestException), so the
whole case resolution aborts and the error propagates past the Driver. -/
theorem claim_C4_short_row_aborts_case :
    parse_order_row [] PdfResponse.transportError "f" none [] =
      .error .indexError ∧
    get_case_details (CaseResponse.ok 200 pageShortRow)
        (rowExtract (fun _ => PdfResponse.transportError) (fun _ => "f")
          (fun _ => none) []) = .error .indexError :=
  ⟨by decide, by decide⟩

/-- Claim C7: for a results table with a header row and N data rows whose
extractions all succeed, the resolved record carries exactly the N per-row
results in source-row order, and the executor slot model yields that same
in-order list for every completion order that covers all rows. -/
theorem claim_C7_orders_in_source_order {status : Nat} {page : CasePage}
    {g j : Heading} {t : List Heading} {s0 s1 : String} {ss : List String}
    {w : Row} {rows : List Row}
    {ext : Nat → Row → Except PyError OrderRecord} {r : Nat → OrderRecord}
    {sched : List Nat}
    (hst : status < 400) (hhd : page.headings = g :: j :: t)
    (hsp : j.spans = s0 :: s1 :: ss)
    (htb : page.table = some (w :: rows))
    (hr : ∀ i (h : i < rows.length), ext i rows[i] = .ok (r i))
    (hcov : ∀ i, i < rows.length → i ∈ sched) :
    get_case_details (.ok status page) ext =
      .ok (some { parties := pyReplaceChar nbspChar (Char.ofNat 32)
                    (pyStrip g.text),
                  status := pyStrip s0, next_date := pyStrip s1,
                  orders := (List.range rows.length).map r,
                  case_info := none }) ∧
    ((List.range rows.length).map r).length = rows.length ∧
    executorMap ext rows sched =
      (List.range rows.length).map (fun i => some (Except.ok (r i))) := by
  have hnle : ¬ 400 ≤ status := by omega
  have hmok : mapIdxM ext 0 rows =
      .ok ((List.range rows.length).map (fun i => r (0 + i))) :=
    mapIdxM_ok rows 0 (fun i h => by simpa using hr i h)
  have hz : (fun i => r (0 + i)) = r := by
    funext i
    rw [Nat.zero_add]
  rw [hz] at hmok
  have hord : extractOrders ext page.table =
      .ok ((List.range rows.length).map r) := by
    rw [htb]
    simpa [extractOrders] using hmok
  refine ⟨by simp [get_case_details, hhd, hsp, hord, hnle], by simp, ?_⟩
  rw [executorMap_covered ext rows sched hcov]
  refine List.map_congr_left ?_
  intro i hi
  rw [List.mem_range] at hi
  have hg : rows.get? i = some rows[i] := by
    simp [List.get?_eq_getElem?, List.getElem?_eq_getElem, hi]
  rw [hg]
  simp [hr i hi]

/-- Witness for claim C7: a table with one data row resolves to a record
with exactly that row's extraction, and the slot model agrees. -/
theorem claim_C7_witness :
    get_case_details (CaseResponse.ok 200 pageOneRow)
        (fun _ _ => .ok (rowRecord UrlField.null)) =
      .ok (some { parties := pyReplaceChar nbspChar (Char.ofNat 32)
                    (pyStrip "A vs B"),
                  status := pyStrip "Pending", next_date := pyStrip "12-05-2024",
                  orders := (List.range (1 : Nat)).map
                    (fun _ => rowRecord UrlField.null),
                  case_info := none }) ∧
    ((List.range (1 : Nat)).map (fun _ => rowRecord UrlField.null)).length = 1 ∧
    executorMap (fun _ _ => (Except.ok (rowRecord UrlField.null) :
        Except PyError OrderRecord)) [plainRow] [0] =
      (List.range (1 : Nat)).map
        (fun _ => (some (Except.ok (rowRecord UrlField.null)) :
          Option (Except PyError OrderRecord))) :=
  @claim_C7_orders_in_source_order 200 pageOneRow { text := "A vs B", spans := [] }
    { text := "", spans := ["Pending", "12-05-2024"] } [] "Pending" "12-05-2024" []
    plainRow [plainRow] (fun _ _ => .ok (rowRecord UrlField.null))
    (fun _ => rowRecord UrlField.null) [0]
    (by decide) rfl rfl rfl (fun i h => rfl)
    (fun i hi => by
      simp at hi ⊢
      omega)

/-- Claim C8 counterexample: a mid-stream transport failure returns no file
handle, yet the partially written file remains in the filesystem with no
cleanup mark — the download is not free of truncated leftovers. -/
theorem claim_C8_counterexample :
    download_pdf [] "f" (PdfResponse.resp 200 (Body.failsAfter [[7]])) =
      (none, [(pdfFilePath "f", [[7]])]) ∧
    fsLookup [(pdfFilePath "f", [[7]])] (pdfFilePath "f") = some [[7]] :=
  ⟨by decide, by decide⟩

/-- Claim C8 as amended: a transport error at request time or a non-success
status yields no file and leaves the filesystem untouched; a mid-stream
transport failure also yields no file but leaves the partially written file
on disk unmanaged; only a complete stream yields the file path. The fetcher
behaves exactly as this contract describes on every input. -/
theorem claim_C8_amended :
    ∀ (fs : FS) (fname : String) (resp : PdfResponse),
      download_pdf fs fname resp = downloadContract fs fname resp := by
  intro fs fname resp
  rcases resp with _ | ⟨st, body⟩
  · rfl
  · by_cases hst : 400 ≤ st
    · have h2 : ¬ st < 400 := by omega
      rcases body <;> simp [download_pdf, downloadContract, hst, h2]
    · have h2 : st < 400 := by omega
      rcases body <;> simp [download_pdf, downloadContract, hst, h2]
